import Mathlib

/-!
Verification development for the insider-msg-sender repository.

Shallow embedding conventions:
* A Go string is modelled as a Lean `String`; one `Char` stands for one unit
  (byte) of the Go string, so `len(s)` is `s.data.length` and slicing `s[:n]`
  is `String.mk (s.data.take n)`.
* `time.Time` is modelled as a `Nat`; the zero time is `0` and `IsZero`
  is `= 0`.
* Go errors are modelled by the inductive `GoError`; `errors.Wrap(err, msg)`
  is `GoError.wrap msg err` and `errors.New(msg)` is `GoError.base msg`.
* Functions with a pointer receiver are translated by explicit state passing:
  the translated function returns the receiver's post-state next to the Go
  return values.
-/

/-- Model of a Go error value: either a base error or a wrapped error
carrying the context string passed to pkg/errors.Wrap. -/
inductive GoError where
  | base (msg : String)
  | wrap (ctx : String) (err : GoError)
deriving DecidableEq, Repr

deriving instance DecidableEq for Except

/-- Go len(s): number of units in the string. -/
def goLen (s : String) : Nat := s.data.length

/-- Go s[:n]: the first n units of the string. -/
def goSlice (s : String) (n : Nat) : String := String.mk (s.data.take n)

namespace message

/-- ErrBlankID, returned when attempting to create a Message without an ID. -/
def ErrBlankID : GoError := .base "ID can't be blank"

/-- ErrInvalidPhoneNumber, returned when the recipient phone number is not
E.164-compliant. -/
def ErrInvalidPhoneNumber : GoError := .base "invalid phone number"

/-- ErrBlankMessageID, returned when setting the sent state without a
message ID. -/
def ErrBlankMessageID : GoError := .base "blank message ID"

/-- ErrInvalidSentDatetime, returned when setting the sent state with a zero
timestamp. -/
def ErrInvalidSentDatetime : GoError := .base "invalid sent datetime"

/-- ErrNegativeCharacterLimit, returned when truncating content with a
negative limit. -/
def ErrNegativeCharacterLimit : GoError := .base "negative character limit"

/-- Decides whether c is an ASCII decimal digit (regexp class backslash-d). -/
def isAsciiDigit (c : Char) : Bool := '0' ≤ c && c ≤ '9'

/-- Matcher for the anchored regular expression of the source,
caret, plus sign, one digit of class 1-9, then 1 to 14 digits, dollar:
a leading plus sign, a first digit in 1..9, then 1 to 14 further digits,
and nothing else. -/
def e164PhoneRegex (s : String) : Bool :=
  match s.data with
  | '+' :: d :: rest =>
      ('1' ≤ d && d ≤ '9') && rest.all isAsciiDigit
        && 1 ≤ rest.length && rest.length ≤ 14
  | _ => false

/-- validatePhone ensures the given number matches E.164 format. -/
def validatePhone (num : String) : Option GoError :=
  if ¬ e164PhoneRegex num then some ErrInvalidPhoneNumber else none

/-- Message entity: ID is the internal identifier, To the recipient phone
number, Content the payload, MessageID the external provider ID after
sending, SentAt the send timestamp (0 = never sent). -/
structure Message where
  ID : String
  To : String
  Content : String
  MessageID : String
  SentAt : Nat
deriving DecidableEq, Repr

/-- NewMessage constructs a Message from id, recipient and content.
Fails with ErrBlankID on an empty id, then with the validatePhone error on an
invalid recipient; on success MessageID and SentAt are left at their zero
values. -/
def NewMessage (id recipient content : String) : Except GoError Message :=
  if id = "" then .error ErrBlankID
  else
    match validatePhone recipient with
    | some e => .error e
    | none => .ok ⟨id, recipient, content, "", 0⟩

/-- SetSent marks the Message as sent. Returns the post-state of the receiver
together with the Go error return: the blank-messageID check runs first, then
the zero-timestamp check; only when both pass are MessageID and SentAt
assigned. -/
def SetSent (m : Message) (messageID : String) (sentAt : Nat) :
    Message × Option GoError :=
  if messageID = "" then (m, some ErrBlankMessageID)
  else if sentAt = 0 then (m, some ErrInvalidSentDatetime)
  else ({ m with MessageID := messageID, SentAt := sentAt }, none)

/-- TruncatedContent returns the receiver post-state (the body performs no
assignment, so it is the receiver itself) and Content truncated to at most
limit units: negative limits fail, a limit at least len(Content) returns
Content unchanged, otherwise the first limit units are returned. -/
def TruncatedContent (m : Message) (limit : Int) :
    Message × Except GoError String :=
  if limit < 0 then (m, .error ErrNegativeCharacterLimit)
  else if limit ≥ (goLen m.Content : Int) then (m, .ok m.Content)
  else (m, .ok (goSlice m.Content limit.toNat))

/-- A Message is pending when no delivery state is set. -/
def Pending (m : Message) : Prop := m.MessageID = "" ∧ m.SentAt = 0

/-- A Message is delivered when both delivery fields are set. -/
def Delivered (m : Message) : Prop := m.MessageID ≠ "" ∧ m.SentAt ≠ 0

/-- The spec's lifecycle invariant: the external id is blank exactly when the
sent timestamp is zero. -/
def Inv (m : Message) : Prop := m.MessageID = "" ↔ m.SentAt = 0

instance (m : Message) : Decidable (Pending m) := by unfold Pending; infer_instance
instance (m : Message) : Decidable (Delivered m) := by unfold Delivered; infer_instance
instance (m : Message) : Decidable (Inv m) := by unfold Inv; infer_instance

end message

namespace message

/-- Closed-form equation for NewMessage, folding the validatePhone call into
a single conditional. -/
lemma NewMessage_eq (id recipient content : String) :
    NewMessage id recipient content =
      if id = "" then .error ErrBlankID
      else if e164PhoneRegex recipient then .ok ⟨id, recipient, content, "", 0⟩
      else .error ErrInvalidPhoneNumber := by
  unfold NewMessage validatePhone
  by_cases h1 : id = "" <;> by_cases hr : e164PhoneRegex recipient <;>
    simp [h1, hr]

/-- C2: every Message produced and updated through the public operations
satisfies the invariant that MessageID is blank iff SentAt is zero:
NewMessage establishes it with both fields unset (the Message is pending),
SetSent preserves it, on success both fields become non-blank/non-zero
(the Message is delivered), on failure neither field changes, and under the
invariant a Message is always either pending or delivered. -/
theorem invariant_maintained_by_operations :
    (∀ id recipient content m, NewMessage id recipient content = .ok m →
      Pending m)
    ∧ (∀ m, Pending m → Inv m)
    ∧ (∀ m mid t, Inv m → Inv (SetSent m mid t).1)
    ∧ (∀ m mid t, (SetSent m mid t).2 = none → Delivered (SetSent m mid t).1)
    ∧ (∀ m mid t e, (SetSent m mid t).2 = some e → (SetSent m mid t).1 = m)
    ∧ (∀ m, Inv m → Pending m ∨ Delivered m) := by
  refine ⟨?_, ?_, ?_, ?_, ?_, ?_⟩
  · intro id recipient content m h
    rw [NewMessage_eq] at h
    split_ifs at h with h1 hr
    injection h with h
    subst h
    exact ⟨rfl, rfl⟩
  · intro m h
    exact ⟨fun _ => h.2, fun _ => h.1⟩
  · intro m mid t h
    by_cases h1 : mid = ""
    · simpa [SetSent, h1] using h
    · by_cases h2 : t = 0
      · simpa [SetSent, h1, h2] using h
      · simp [SetSent, Inv, h1, h2]
  · intro m mid t h
    by_cases h1 : mid = ""
    · simp [SetSent, h1] at h
    · by_cases h2 : t = 0
      · simp [SetSent, h1, h2] at h
      · simp [SetSent, Delivered, h1, h2]
  · intro m mid t e h
    by_cases h1 : mid = ""
    · simp [SetSent, h1]
    · by_cases h2 : t = 0
      · simp [SetSent, h1, h2]
      · simp [SetSent, h1, h2] at h
  · intro m h
    by_cases hb : m.MessageID = ""
    · exact .inl ⟨hb, h.mp hb⟩
    · exact .inr ⟨hb, fun hz => hb (h.mpr hz)⟩

/-- Witness for C2: the invariant theorem applied at concrete inputs, one per
hypothesis-bearing conjunct. -/
theorem invariant_maintained_by_operations_witness :
    Pending ⟨"1", "+994551234567", "hello", "", 0⟩
    ∧ Inv (SetSent ⟨"1", "+12", "c", "", 0⟩ "ext-1" 5).1
    ∧ Delivered (SetSent ⟨"1", "+12", "c", "", 0⟩ "ext-1" 5).1
    ∧ (SetSent ⟨"1", "+12", "c", "", 0⟩ "" 0).1 = ⟨"1", "+12", "c", "", 0⟩
    ∧ (Pending ⟨"1", "+12", "c", "", 0⟩ ∨ Delivered ⟨"1", "+12", "c", "", 0⟩) :=
  ⟨invariant_maintained_by_operations.1 "1" "+994551234567" "hello" _ (by decide),
   invariant_maintained_by_operations.2.2.1 _ "ext-1" 5 (by decide),
   invariant_maintained_by_operations.2.2.2.1 _ "ext-1" 5 (by decide),
   invariant_maintained_by_operations.2.2.2.2.1 _ "" 0 ErrBlankMessageID (by decide),
   invariant_maintained_by_operations.2.2.2.2.2 _ (by decide)⟩

/-- C3: NewMessage succeeds exactly when the id is non-empty and the
recipient matches the E.164 pattern; a successful result carries the given
id, recipient and content with blank MessageID and zero SentAt; an empty id
yields ErrBlankID and a non-matching recipient yields
ErrInvalidPhoneNumber. -/
theorem NewMessage_success_iff (id recipient content : String) :
    (NewMessage id recipient content = .ok ⟨id, recipient, content, "", 0⟩
      ↔ id ≠ "" ∧ e164PhoneRegex recipient = true)
    ∧ (∀ m, NewMessage id recipient content = .ok m →
        m = ⟨id, recipient, content, "", 0⟩)
    ∧ (id = "" → NewMessage id recipient content = .error ErrBlankID)
    ∧ (id ≠ "" → e164PhoneRegex recipient = false →
        NewMessage id recipient content = .error ErrInvalidPhoneNumber) := by
  rw [NewMessage_eq]
  refine ⟨⟨?_, ?_⟩, ?_, ?_, ?_⟩
  · intro h
    split_ifs at h with h1 hr
    exact ⟨h1, hr⟩
  · rintro ⟨h1, h2⟩
    simp [h1, h2]
  · intro m h
    split_ifs at h with h1 hr
    injection h with h
    exact h.symm
  · intro h1
    simp [h1]
  · intro h1 h2
    simp [h1, h2]

/-- Witness for C3: the characterization applied at a blank id, at an invalid
phone number and at a valid pair. -/
theorem NewMessage_success_iff_witness :
    NewMessage "" "+12" "c" = .error ErrBlankID
    ∧ NewMessage "1" "994123" "c" = .error ErrInvalidPhoneNumber
    ∧ NewMessage "1" "+994551234567" "hello"
        = .ok ⟨"1", "+994551234567", "hello", "", 0⟩ :=
  ⟨(NewMessage_success_iff "" "+12" "c").2.2.1 rfl,
   (NewMessage_success_iff "1" "994123" "c").2.2.2 (by decide) (by decide),
   (NewMessage_success_iff "1" "+994551234567" "hello").1.mpr
     ⟨by decide, by decide⟩⟩

/-- C8: TruncatedContent fails with the negative-limit error exactly when the
limit is negative, returns Content unchanged when the limit is at least
len(Content), returns exactly the first limit units otherwise, and always
leaves the receiver unmodified. -/
theorem TruncatedContent_spec (m : Message) (limit : Int) :
    (TruncatedContent m limit).1 = m
    ∧ ((TruncatedContent m limit).2 = .error ErrNegativeCharacterLimit
        ↔ limit < 0)
    ∧ (0 ≤ limit → (goLen m.Content : Int) ≤ limit →
        (TruncatedContent m limit).2 = .ok m.Content)
    ∧ (0 ≤ limit → limit < (goLen m.Content : Int) →
        (TruncatedContent m limit).2 = .ok (goSlice m.Content limit.toNat)
        ∧ goLen (goSlice m.Content limit.toNat) = limit.toNat) := by
  unfold TruncatedContent
  refine ⟨?_, ⟨?_, ?_⟩, ?_, ?_⟩
  · split_ifs <;> rfl
  · intro h
    split_ifs at h with h1 h2
    exact h1
  · intro h
    simp [h]
  · intro h1 h2
    rw [if_neg (by omega), if_pos (by omega)]
  · intro h1 h2
    rw [if_neg (by omega), if_neg (by omega)]
    refine ⟨rfl, ?_⟩
    have hg : goLen (goSlice m.Content limit.toNat)
        = (m.Content.data.take limit.toNat).length := rfl
    rw [hg, List.length_take]
    simp only [goLen] at h2
    omega

/-- Witness for C8: the truncation contract applied at a negative limit, a
large limit and an interior limit on a concrete message. -/
theorem TruncatedContent_spec_witness :
    (TruncatedContent ⟨"1", "+12", "hello", "", 0⟩ (-3)).2
      = .error ErrNegativeCharacterLimit
    ∧ (TruncatedContent ⟨"1", "+12", "hello", "", 0⟩ 9).2 = .ok "hello"
    ∧ (TruncatedContent ⟨"1", "+12", "hello", "", 0⟩ 3).2 = .ok (goSlice "hello" 3)
    ∧ (TruncatedContent ⟨"1", "+12", "hello", "", 0⟩ 3).1
      = ⟨"1", "+12", "hello", "", 0⟩ :=
  ⟨(TruncatedContent_spec ⟨"1", "+12", "hello", "", 0⟩ (-3)).2.1.mpr (by decide),
   (TruncatedContent_spec ⟨"1", "+12", "hello", "", 0⟩ 9).2.2.1 (by decide)
     (by decide),
   ((TruncatedContent_spec ⟨"1", "+12", "hello", "", 0⟩ 3).2.2.2 (by decide)
     (by decide)).1,
   (TruncatedContent_spec ⟨"1", "+12", "hello", "", 0⟩ 3).1⟩

/-- C10: whenever SetSent reports an error, the Message post-state equals the
pre-state, so a failed sent-state transition changes neither MessageID nor
SentAt. -/
theorem SetSent_error_leaves_message_unchanged (m : Message) (mid : String)
    (t : Nat) (e : GoError) (h : (SetSent m mid t).2 = some e) :
    (SetSent m mid t).1 = m := by
  by_cases h1 : mid = ""
  · simp [SetSent, h1]
  · by_cases h2 : t = 0
    · simp [SetSent, h1, h2]
    · simp [SetSent, h1, h2] at h

/-- Witness for C10: a blank external id at a concrete message leaves the
message unchanged. -/
theorem SetSent_error_leaves_message_unchanged_witness :
    (SetSent ⟨"1", "+12", "c", "x", 7⟩ "" 0).1 = ⟨"1", "+12", "c", "x", 7⟩ :=
  SetSent_error_leaves_message_unchanged ⟨"1", "+12", "c", "x", 7⟩ "" 0
    ErrBlankMessageID (by decide)

end message

namespace message

/-- SendResult holds the external provider identifier and send timestamp
returned by a successful delivery. -/
structure SendResult where
  MessageID : String
  SentAt : Nat
deriving DecidableEq, Repr

/-- SentMessage, the immutable projection of a delivered Message. -/
structure SentMessage where
  MessageID : String
  SentAt : Nat
deriving DecidableEq, Repr

/-- The message.Repository interface: each operation takes the collaborator's
state and returns the Go results next to the successor state. -/
structure Repository (ρ : Type) where
  getNextUnsent : ρ → (Except GoError (Option Message)) × ρ
  getAllUnsent : ρ → (Except GoError (List Message)) × ρ
  getAllSent : ρ → (Except GoError (List SentMessage)) × ρ
  save : ρ → Message → (Except GoError Unit) × ρ

/-- The message.Sender interface: Send takes the collaborator's state and a
Message and returns either a SendResult or an error, next to the successor
state. -/
structure Sender (σ : Type) where
  send : σ → Message → (Except GoError SendResult) × σ

end message

namespace application

open message

/-- Observable calls the Application makes on its collaborators, in order:
sendCall records a message passed to Sender.Send, saveCall a message passed
to Repository.Save, and sleepTick the fixed pacing delay between batch
sends. -/
inductive AppEvent where
  | sendCall (m : Message)
  | saveCall (m : Message)
  | sleepTick
deriving DecidableEq, Repr

/-- Application.sendMessage: delivers one message via the Sender, marks it
sent with the returned result, and persists it via the Repository. A Send
failure is wrapped with the sending-message context, a SetSent failure with
the setting-sent context, and the Save result is returned as is. The trace
lists the collaborator calls made. -/
def sendMessage (repo : Repository ρ) (snd : Sender σ) (s : ρ × σ)
    (msg : Message) : (Except GoError Unit) × (ρ × σ) × List AppEvent :=
  match snd.send s.2 msg with
  | (.error e, s2) =>
      (.error (.wrap "sending message" e), (s.1, s2), [.sendCall msg])
  | (.ok res, s2) =>
      match SetSent msg res.MessageID res.SentAt with
      | (_, some e) =>
          (.error (.wrap "setting message sent status" e), (s.1, s2),
            [.sendCall msg])
      | (msg2, none) =>
          match repo.save s.1 msg2 with
          | (r, s3) => (r, (s3, s2), [.sendCall msg, .saveCall msg2])

/-- The loop body of Application.SendAllUnsent: send each fetched message in
order, aborting on the first failure and sleeping for the pacing delay after
each success. -/
def sendLoop (repo : Repository ρ) (snd : Sender σ) :
    ρ × σ → List Message → (Except GoError Unit) × (ρ × σ) × List AppEvent
  | s, [] => (.ok (), s, [])
  | s, msg :: rest =>
      match sendMessage repo snd s msg with
      | (.error e, s2, ev) => (.error e, s2, ev)
      | (.ok _, s2, ev) =>
          match sendLoop repo snd s2 rest with
          | (r, s3, ev3) => (r, s3, ev ++ .sleepTick :: ev3)

/-- Application.SendAllUnsent: fetch all pending messages and send each one
sequentially, aborting the batch on the first failure. -/
def SendAllUnsent (repo : Repository ρ) (snd : Sender σ) (s : ρ × σ) :
    (Except GoError Unit) × (ρ × σ) × List AppEvent :=
  match repo.getAllUnsent s.1 with
  | (.error e, s1) =>
      (.error (.wrap "getting all unsent messages" e), (s1, s.2), [])
  | (.ok msgs, s1) => sendLoop repo snd (s1, s.2) msgs

/-- Application.SendNext: fetch the next pending message; succeed with no
further collaborator calls when the repository reports none; otherwise run
the single-message send-and-persist routine. -/
def SendNext (repo : Repository ρ) (snd : Sender σ) (s : ρ × σ) :
    (Except GoError Unit) × (ρ × σ) × List AppEvent :=
  match repo.getNextUnsent s.1 with
  | (.error e, s1) =>
      (.error (.wrap "getting next unsent message" e), (s1, s.2), [])
  | (.ok none, s1) => (.ok (), (s1, s.2), [])
  | (.ok (some msg), s1) => sendMessage repo snd ((s1 : ρ), s.2) msg

end application

namespace message

/-- Successful SetSent in closed form: with a non-blank id and non-zero
timestamp, both delivery fields are assigned and no error is returned. -/
lemma SetSent_ok (m : Message) (mid : String) (t : Nat) (hmid : mid ≠ "")
    (ht : t ≠ 0) :
    SetSent m mid t = ({ m with MessageID := mid, SentAt := t }, none) := by
  simp [SetSent, hmid, ht]

end message

namespace application

open message

/-- A list-backed Repository used to instantiate the dispatcher theorems:
the state is the pending list paired with the log of saved messages. -/
def testRepo : Repository (List Message × List Message) where
  getNextUnsent := fun s => (.ok s.1.head?, s)
  getAllUnsent := fun s => (.ok s.1, s)
  getAllSent := fun s => (.ok [], s)
  save := fun s m => (.ok (), (s.1, s.2 ++ [m]))

/-- A Sender stub that fails exactly on messages whose ID is the string 2 and
otherwise reports external id ext-1 sent at time 5. -/
def testSender : Sender Unit where
  send := fun u m =>
    (if m.ID = "2" then .error (.base "boom") else .ok ⟨"ext-1", 5⟩, u)

/-- Pending test message with the given id. -/
def testMsg (i : String) : Message := ⟨i, "+994551234567", "hello", "", 0⟩

/-- C1: when the repository returns the pending batch [m1, m2, m3] and
delivery of m2 fails, SendAllUnsent returns m2's wrapped delivery error with
the exact collaborator trace: m1 is delivered and persisted, m2 is sent
exactly once, m3 is never attempted, and nothing but m1's delivered state is
ever saved. -/
theorem SendAllUnsent_aborts_on_first_failure {ρ σ : Type}
    (repo : Repository ρ) (snd : Sender σ) (s0 : ρ × σ)
    (m1 m2 m3 : Message) (r1 : SendResult) (e : GoError)
    (r1st : ρ) (r2nd : ρ) (t1st : σ) (t2nd : σ)
    (hp2 : Pending m2) (hp3 : Pending m3)
    (hne21 : m2 ≠ m1) (hne31 : m3 ≠ m1) (hne32 : m3 ≠ m2)
    (hfetch : repo.getAllUnsent s0.1 = (.ok [m1, m2, m3], r1st))
    (hsend1 : snd.send s0.2 m1 = (.ok r1, t1st))
    (hmid : r1.MessageID ≠ "") (ht : r1.SentAt ≠ 0)
    (hsave1 : repo.save r1st
        { m1 with MessageID := r1.MessageID, SentAt := r1.SentAt }
        = (.ok (), r2nd))
    (hsend2 : snd.send t1st m2 = (.error e, t2nd)) :
    SendAllUnsent repo snd s0
      = (.error (.wrap "sending message" e), (r2nd, t2nd),
         [.sendCall m1,
          .saveCall { m1 with MessageID := r1.MessageID, SentAt := r1.SentAt },
          .sleepTick, .sendCall m2])
    ∧ Delivered { m1 with MessageID := r1.MessageID, SentAt := r1.SentAt }
    ∧ (SendAllUnsent repo snd s0).2.2.count (.sendCall m2) = 1
    ∧ AppEvent.sendCall m3 ∉ (SendAllUnsent repo snd s0).2.2
    ∧ AppEvent.saveCall m2 ∉ (SendAllUnsent repo snd s0).2.2
    ∧ AppEvent.saveCall m3 ∉ (SendAllUnsent repo snd s0).2.2 := by
  have heq : SendAllUnsent repo snd s0
      = (.error (.wrap "sending message" e), (r2nd, t2nd),
         [.sendCall m1,
          .saveCall { m1 with MessageID := r1.MessageID, SentAt := r1.SentAt },
          .sleepTick, .sendCall m2]) := by
    simp only [SendAllUnsent, hfetch, sendLoop, sendMessage, hsend1,
      SetSent_ok m1 r1.MessageID r1.SentAt hmid ht, hsave1, hsend2,
      List.cons_append, List.nil_append]
  have hdel : Delivered
      { m1 with MessageID := r1.MessageID, SentAt := r1.SentAt } :=
    ⟨hmid, ht⟩
  have hm2 : m2 ≠ { m1 with MessageID := r1.MessageID, SentAt := r1.SentAt } := by
    intro hc
    have h2id : m2.MessageID = r1.MessageID := by rw [hc]
    exact hmid (by rw [← h2id]; exact hp2.1)
  have hm3 : m3 ≠ { m1 with MessageID := r1.MessageID, SentAt := r1.SentAt } := by
    intro hc
    have h3id : m3.MessageID = r1.MessageID := by rw [hc]
    exact hmid (by rw [← h3id]; exact hp3.1)
  rw [heq]
  refine ⟨rfl, hdel, ?_, ?_, ?_, ?_⟩
  · simp [List.count_cons, hne21]
  · simp [hne31, hne32]
  · simp [hm2]
  · simp [hm3]

/-- Witness for C1: the abort theorem applied to the list-backed repository
and the stub sender on the pending batch with ids 1, 2, 3. -/
theorem SendAllUnsent_aborts_on_first_failure_witness :
    SendAllUnsent testRepo testSender
        (([testMsg "1", testMsg "2", testMsg "3"], []), ())
      = (.error (.wrap "sending message" (.base "boom")),
         (([testMsg "1", testMsg "2", testMsg "3"],
           [{ testMsg "1" with MessageID := "ext-1", SentAt := 5 }]), ()),
         [.sendCall (testMsg "1"),
          .saveCall { testMsg "1" with MessageID := "ext-1", SentAt := 5 },
          .sleepTick, .sendCall (testMsg "2")]) :=
  (SendAllUnsent_aborts_on_first_failure testRepo testSender
    (([testMsg "1", testMsg "2", testMsg "3"], []), ())
    (testMsg "1") (testMsg "2") (testMsg "3") ⟨"ext-1", 5⟩ (.base "boom")
    ([testMsg "1", testMsg "2", testMsg "3"], [])
    (([testMsg "1", testMsg "2", testMsg "3"],
      [{ testMsg "1" with MessageID := "ext-1", SentAt := 5 }])) () ()
    (by decide) (by decide) (by decide) (by decide) (by decide)
    (by decide) (by decide) (by decide) (by decide) (by decide)
    (by decide)).1

/-- C9: when the repository reports an empty pending queue (an explicit
no-message result with no error), SendNext succeeds and the collaborator
trace is empty: the Sender is never invoked and nothing is saved. -/
theorem SendNext_empty_queue_succeeds_without_sending {ρ σ : Type}
    (repo : Repository ρ) (snd : Sender σ) (s0 : ρ × σ) (r1st : ρ)
    (h : repo.getNextUnsent s0.1 = (.ok none, r1st)) :
    SendNext repo snd s0 = (.ok (), (r1st, s0.2), []) := by
  simp only [SendNext, h]

/-- Witness for C9: the empty-queue theorem applied to the list-backed
repository with no pending messages. -/
theorem SendNext_empty_queue_succeeds_without_sending_witness :
    SendNext testRepo testSender (([], []), ()) = (.ok (), (([], []), ()), []) :=
  SendNext_empty_queue_succeeds_without_sending testRepo testSender
    (([], []), ()) ([], []) (by decide)

end application

namespace postgres

open message

/-- One row of the message table: id is the serial key, message_id and
sent_at are nullable delivery fields. Creation order (created_at) is the
list order. -/
structure PgRow where
  id : Nat
  recipient : String
  content : String
  message_id : Option String
  sent_at : Option Nat
deriving DecidableEq, Repr

/-- Value of a decimal digit character. -/
def digitVal (c : Char) : Nat := c.toNat - 48

/-- strconv.Atoi restricted to the canonical non-negative decimal numerals
produced by strID; any other string is a parse failure. -/
def atoi (s : String) : Except GoError Nat :=
  if s ≠ "" ∧ s.data.all isAsciiDigit then
    .ok (s.data.foldl (fun n c => n * 10 + digitVal c) 0)
  else .error (.base "invalid syntax")

/-- strID formats an integer ID as its string representation. -/
def strID (id : Nat) : String := toString id

/-- messageFromRow converts a row to a message.Message via NewMessage. -/
def messageFromRow (r : PgRow) : Except GoError Message :=
  NewMessage (strID r.id) r.recipient r.content

/-- sentMessageFromRow converts a row to a SentMessage, failing when the
sent timestamp or the external message ID is missing. -/
def sentMessageFromRow (r : PgRow) : Except GoError SentMessage :=
  match r.sent_at with
  | none => .error (.base "invalid sent timestamp")
  | some t =>
      match r.message_id with
      | none => .error (.base "invalid message ID")
      | some mid => .ok ⟨mid, t⟩

/-- MessageRepository.GetNextUnsent: the first row with a null sent_at in
creation order, converted to a Message; an empty result is the explicit
no-message signal with no error. -/
def GetNextUnsent (rows : List PgRow) :
    (Except GoError (Option Message)) × List PgRow :=
  match rows.find? (fun r => r.sent_at.isNone) with
  | none => (.ok none, rows)
  | some r =>
      match messageFromRow r with
      | .error e => (.error e, rows)
      | .ok m => (.ok (some m), rows)

/-- MessageRepository.GetAllUnsent: all rows with a null sent_at in creation
order, each converted to a Message; the first conversion error aborts with
the wrapped error. -/
def GetAllUnsent (rows : List PgRow) :
    (Except GoError (List Message)) × List PgRow :=
  match (rows.filter (fun r => r.sent_at.isNone)).mapM
      (fun r =>
        (match messageFromRow r with
         | .error e => .error (GoError.wrap "creating message from row" e)
         | .ok m => .ok m : Except GoError Message)) with
  | .error e => (.error e, rows)
  | .ok msgs => (.ok msgs, rows)

/-- MessageRepository.GetAllSent: all rows with a non-null sent_at in
creation order, each converted to a SentMessage. -/
def GetAllSent (rows : List PgRow) :
    (Except GoError (List SentMessage)) × List PgRow :=
  match (rows.filter (fun r => r.sent_at.isSome)).mapM sentMessageFromRow with
  | .error e => (.error e, rows)
  | .ok msgs => (.ok msgs, rows)

/-- MessageRepository.Save: does nothing when SentAt is zero, errors when the
external message ID is blank or the internal ID does not parse, and
otherwise runs the SetMessageSent update on the row with the matching id
(the storage engine itself is assumed reachable). -/
def Save (rows : List PgRow) (msg : Message) :
    (Except GoError Unit) × List PgRow :=
  if msg.SentAt = 0 then (.ok (), rows)
  else if msg.MessageID = "" then (.error (.base "message ID is empty"), rows)
  else
    match atoi msg.ID with
    | .error e => (.error (.wrap "converting message ID to int" e), rows)
    | .ok id =>
        (.ok (),
         rows.map (fun r =>
           if r.id = id then
             { r with message_id := some msg.MessageID,
                      sent_at := some msg.SentAt }
           else r))

/-- The PostgreSQL-backed message.Repository implementation. -/
def MessageRepository : Repository (List PgRow) where
  getNextUnsent := GetNextUnsent
  getAllUnsent := GetAllUnsent
  getAllSent := GetAllSent
  save := Save

end postgres

namespace redis

open message

/-- State of a CacheRepository over an inner repository with state ρ: the
inner state, the Redis list under the configured key (head = leftmost entry,
JSON round-tripping modelled as exact), and whether the Redis client can
reach the server. -/
structure CacheState (ρ : Type) where
  inner : ρ
  cache : List SentMessage
  healthy : Bool
deriving DecidableEq, Repr

/-- The external Redis client's LPush: pushes the items one after another
onto the head of the list, so the last item ends up leftmost; fails when the
server is unreachable. -/
def lpush (s : CacheState ρ) (items : List SentMessage) :
    (Except GoError Unit) × CacheState ρ :=
  if s.healthy then (.ok (), { s with cache := items.reverse ++ s.cache })
  else (.error (.base "redis: connection refused"), s)

/-- The external Redis client's LRange over the full list: returns the
entries head-first; fails when the server is unreachable. -/
def lrange (s : CacheState ρ) :
    (Except GoError (List SentMessage)) × CacheState ρ :=
  if s.healthy then (.ok s.cache, s)
  else (.error (.base "redis: connection refused"), s)

/-- CacheRepository.saveMessageToCache: pushes the single DeliveryRecord of
the message onto the Redis list, wrapping a push failure. -/
def saveMessageToCache (s : CacheState ρ) (msg : Message) :
    (Except GoError Unit) × CacheState ρ :=
  match lpush s [⟨msg.MessageID, msg.SentAt⟩] with
  | (.error e, s2) => (.error (.wrap "adding message to cache" e), s2)
  | (.ok _, s2) => (.ok (), s2)

/-- CacheRepository.saveAllToCache: pushes all records onto the Redis list,
wrapping a push failure. -/
def saveAllToCache (s : CacheState ρ) (msgs : List SentMessage) :
    (Except GoError Unit) × CacheState ρ :=
  match lpush s msgs with
  | (.error e, s2) => (.error (.wrap "adding messages to cache" e), s2)
  | (.ok _, s2) => (.ok (), s2)

/-- CacheRepository.getMessagesFromCache: reads the whole Redis list,
wrapping a read failure. -/
def getMessagesFromCache (s : CacheState ρ) :
    (Except GoError (List SentMessage)) × CacheState ρ :=
  match lrange s with
  | (.error e, s2) =>
      (.error (.wrap "getting sent messages from cache" e), s2)
  | (.ok msgs, s2) => (.ok msgs, s2)

/-- CacheRepository.Save: delegates to the inner repository first and only on
its success appends the message's DeliveryRecord to the cache. -/
def Save (repo : Repository ρ) (s : CacheState ρ) (msg : Message) :
    (Except GoError Unit) × CacheState ρ :=
  match repo.save s.inner msg with
  | (.error e, i2) => (.error e, { s with inner := i2 })
  | (.ok _, i2) => saveMessageToCache { s with inner := i2 } msg

/-- CacheRepository.GetAllSent: returns the cached entries when the cache is
non-empty, otherwise falls back to the inner repository, populates the cache
with the fetched result and returns it. The final Bool records whether the
inner repository was invoked. -/
def GetAllSent (repo : Repository ρ) (s : CacheState ρ) :
    (Except GoError (List SentMessage)) × CacheState ρ × Bool :=
  match getMessagesFromCache s with
  | (.error e, s1) => (.error e, s1, false)
  | (.ok msgs, s1) =>
      if msgs.length > 0 then (.ok msgs, s1, false)
      else
        match repo.getAllSent s1.inner with
        | (.error e, i2) => (.error e, { s1 with inner := i2 }, true)
        | (.ok fetched, i2) =>
            match saveAllToCache { s1 with inner := i2 } fetched with
            | (.error e, s3) => (.error e, s3, true)
            | (.ok _, s3) => (.ok fetched, s3, true)

end redis

namespace redis

open message

/-- Two delivered rows used to instantiate the repository theorems. -/
def demoRows : List postgres.PgRow :=
  [⟨1, "+12", "c", some "e1", some 4⟩, ⟨2, "+12", "c", some "e2", some 5⟩]

/-- An inner repository whose durable save always fails. -/
def failRepo : Repository Unit where
  getNextUnsent := fun u => (.ok none, u)
  getAllUnsent := fun u => (.ok [], u)
  getAllSent := fun u => (.ok [], u)
  save := fun u _ => (.error (.base "db down"), u)

/-- Counterexample to C4: saving a still-pending message through the
cache-decorated repository succeeds and leaves the durable rows unchanged,
but appends a blank DeliveryRecord to the cache projection, so the call is
not a no-op on the cache-decorated Repository. -/
theorem Save_pending_on_cache_repo_writes_cache :
    Save postgres.MessageRepository ⟨demoRows, [], true⟩ ⟨"1", "+12", "c", "", 0⟩
      = (.ok (), ⟨demoRows, [⟨"", 0⟩], true⟩)
    ∧ ([⟨"", 0⟩] : List SentMessage) ≠ [] := by
  constructor
  · rfl
  · decide

/-- C4 as amended: a Save of a pending message is a no-op success on the
plain durable repository; through the cache-decorated repository (with the
cache reachable) it also succeeds and leaves the durable rows untouched, but
pushes the blank DeliveryRecord onto the cache. -/
theorem Save_pending_noop_durable_but_pushes_blank_record :
    (∀ rows msg, Pending msg → postgres.Save rows msg = (.ok (), rows))
    ∧ (∀ (s : CacheState (List postgres.PgRow)) msg, Pending msg →
        s.healthy = true →
        Save postgres.MessageRepository s msg
          = (.ok (), ⟨s.inner, [⟨"", 0⟩] ++ s.cache, true⟩)) := by
  have hpg : ∀ rows msg, Pending msg → postgres.Save rows msg = (.ok (), rows) := by
    intro rows msg hp
    simp [postgres.Save, hp.2]
  refine ⟨hpg, ?_⟩
  intro s msg hp hh
  simp only [Save, postgres.MessageRepository, hpg s.inner msg hp,
    saveMessageToCache, lpush, hh, if_true, hp.1, hp.2,
    List.reverse_singleton]

/-- Witness for the amended C4: both parts applied to a concrete pending
message over the demo rows. -/
theorem Save_pending_noop_durable_but_pushes_blank_record_witness :
    postgres.Save demoRows ⟨"1", "+12", "c", "", 0⟩ = (.ok (), demoRows)
    ∧ Save postgres.MessageRepository ⟨demoRows, [⟨"e9", 9⟩], true⟩
        ⟨"1", "+12", "c", "", 0⟩
      = (.ok (), ⟨demoRows, [⟨"", 0⟩] ++ [⟨"e9", 9⟩], true⟩) :=
  ⟨Save_pending_noop_durable_but_pushes_blank_record.1 demoRows
     ⟨"1", "+12", "c", "", 0⟩ ⟨rfl, rfl⟩,
   Save_pending_noop_durable_but_pushes_blank_record.2
     ⟨demoRows, [⟨"e9", 9⟩], true⟩ ⟨"1", "+12", "c", "", 0⟩ ⟨rfl, rfl⟩ rfl⟩

/-- Counterexample to C5: over two delivered rows, the second GetAllSent call
serves the cache, whose LPush population reversed the order, so it does not
return the same content the first call returned; and over an inner store
with no delivered rows, the second call invokes the inner store again. -/
theorem GetAllSent_second_call_reversed_or_refetches :
    (GetAllSent postgres.MessageRepository ⟨demoRows, [], true⟩).1
      = .ok [⟨"e1", 4⟩, ⟨"e2", 5⟩]
    ∧ (GetAllSent postgres.MessageRepository
        (GetAllSent postgres.MessageRepository ⟨demoRows, [], true⟩).2.1).1
      = .ok [⟨"e2", 5⟩, ⟨"e1", 4⟩]
    ∧ (.ok [⟨"e2", 5⟩, ⟨"e1", 4⟩] : Except GoError (List SentMessage))
        ≠ .ok [⟨"e1", 4⟩, ⟨"e2", 5⟩]
    ∧ (GetAllSent postgres.MessageRepository ⟨[], [], true⟩).2.2 = true
    ∧ (GetAllSent postgres.MessageRepository
        (GetAllSent postgres.MessageRepository ⟨[], [], true⟩).2.1).2.2
      = true := by
  refine ⟨rfl, rfl, ?_, rfl, rfl⟩
  decide

/-- C5 as amended: on an empty cache, GetAllSent reads the inner store,
pushes the full result set onto the cache, reports the inner store as
invoked and returns the fetched records; when that result is non-empty, the
immediately following call serves the same records from the cache in reverse
order without invoking the inner store. -/
theorem GetAllSent_read_through_populates {ρ : Type}
    (repo : Repository ρ) (s : CacheState ρ) (msgs : List SentMessage)
    (i2 : ρ) (hc : s.cache = []) (hh : s.healthy = true)
    (hfetch : repo.getAllSent s.inner = (.ok msgs, i2)) :
    GetAllSent repo s = (.ok msgs, ⟨i2, msgs.reverse, true⟩, true)
    ∧ (msgs ≠ [] →
        GetAllSent repo ⟨i2, msgs.reverse, true⟩
          = (.ok msgs.reverse, ⟨i2, msgs.reverse, true⟩, false)) := by
  constructor
  · simp [GetAllSent, getMessagesFromCache, lrange, hh, hc, hfetch,
      saveAllToCache, lpush]
  · intro hne
    have hlen : msgs.reverse.length > 0 := by
      simpa [List.length_reverse, List.length_pos] using hne
    simp only [GetAllSent, getMessagesFromCache, lrange, CacheState.healthy,
      if_true, if_pos hlen]

/-- Witness for the amended C5: the read-through theorem applied to the demo
rows, giving both calls' concrete results. -/
theorem GetAllSent_read_through_populates_witness :
    GetAllSent postgres.MessageRepository ⟨demoRows, [], true⟩
      = (.ok [⟨"e1", 4⟩, ⟨"e2", 5⟩],
         ⟨demoRows, [⟨"e2", 5⟩, ⟨"e1", 4⟩], true⟩, true)
    ∧ GetAllSent postgres.MessageRepository
        ⟨demoRows, [⟨"e2", 5⟩, ⟨"e1", 4⟩], true⟩
      = (.ok [⟨"e2", 5⟩, ⟨"e1", 4⟩],
         ⟨demoRows, [⟨"e2", 5⟩, ⟨"e1", 4⟩], true⟩, false) := by
  have h := GetAllSent_read_through_populates postgres.MessageRepository
    ⟨demoRows, [], true⟩ [⟨"e1", 4⟩, ⟨"e2", 5⟩] demoRows rfl rfl (by decide)
  exact ⟨h.1, h.2 (by decide)⟩

/-- C6: CacheRepository.Save delegates to the inner repository first: an
inner failure is returned as is with the cache untouched, while an inner
success followed by an unreachable cache yields the wrapped cache error even
though the durable write already took effect. -/
theorem Save_inner_first_cache_failure_reported {ρ : Type}
    (repo : Repository ρ) (s : CacheState ρ) (msg : Message) :
    (∀ e i2, repo.save s.inner msg = (.error e, i2) →
      Save repo s msg = (.error e, { s with inner := i2 }))
    ∧ (∀ u i2, repo.save s.inner msg = (.ok u, i2) → s.healthy = false →
      Save repo s msg
        = (.error (.wrap "adding message to cache"
            (.base "redis: connection refused")), { s with inner := i2 })) := by
  constructor
  · intro e i2 h
    simp [Save, h]
  · intro u i2 h hh
    simp [Save, h, saveMessageToCache, lpush, hh]

/-- Witness for C6: the inner-failure branch on the always-failing stub and
the cache-failure branch on the durable repository with the cache down. -/
theorem Save_inner_first_cache_failure_reported_witness :
    Save failRepo ⟨(), [], true⟩ ⟨"1", "+12", "c", "e9", 9⟩
      = (.error (.base "db down"), ⟨(), [], true⟩)
    ∧ Save postgres.MessageRepository ⟨demoRows, [], false⟩
        ⟨"1", "+12", "c", "e9", 9⟩
      = (.error (.wrap "adding message to cache"
          (.base "redis: connection refused")),
         ⟨[⟨1, "+12", "c", some "e9", some 9⟩,
           ⟨2, "+12", "c", some "e2", some 5⟩], [], false⟩) :=
  ⟨(Save_inner_first_cache_failure_reported failRepo ⟨(), [], true⟩
      ⟨"1", "+12", "c", "e9", 9⟩).1 (.base "db down") () rfl,
   (Save_inner_first_cache_failure_reported postgres.MessageRepository
      ⟨demoRows, [], false⟩ ⟨"1", "+12", "c", "e9", 9⟩).2 ()
      [⟨1, "+12", "c", some "e9", some 9⟩, ⟨2, "+12", "c", some "e2", some 5⟩]
      (by decide) rfl⟩

end redis

namespace daemon

/-!
TimerDaemon is concurrent Go code; it is modelled as a transition system on
the mutex-protected state. `running` is the running flag. The stop channel
is modelled by its generation number `stopGen`: `Stop` closes the current
channel and allocates a fresh one, which bumps the generation. Each live
runJob goroutine is recorded in `loopGens` by the generation of the stop
channel it selects on; the goroutine's deferred cleanup (clearing `running`
on exit) is the separate `loopExit` step, enabled once the goroutine's
channel has been closed (its generation is below `stopGen`). A state is
ticking when some live goroutine still selects on the open channel: only
such a goroutine dispatches the job on ticker ticks.
-/

/-- Mutex-protected TimerDaemon state together with the set of live runJob
goroutines (by stop-channel generation). -/
structure DaemonState where
  running : Bool
  stopGen : Nat
  loopGens : List Nat
deriving DecidableEq, Repr

/-- NewTimerDaemon: not running, fresh stop channel, no goroutine. -/
def NewTimerDaemon : DaemonState := ⟨false, 0, []⟩

/-- TimerDaemon.Start: returns nil immediately when already running;
otherwise sets the running flag and spawns a runJob goroutine selecting on
the current stop channel. Always succeeds. -/
def Start (s : DaemonState) : (Except GoError Unit) × DaemonState :=
  if s.running then (.ok (), s)
  else (.ok (), ⟨true, s.stopGen, s.stopGen :: s.loopGens⟩)

/-- TimerDaemon.Stop: returns nil immediately when not running; otherwise
closes the current stop channel and prepares a fresh one for future
restarts. Always succeeds. -/
def Stop (s : DaemonState) : (Except GoError Unit) × DaemonState :=
  if ¬ s.running then (.ok (), s)
  else (.ok (), { s with stopGen := s.stopGen + 1 })

/-- Exit of the runJob goroutine that selects on channel generation g: its
deferred cleanup clears the running flag. -/
def loopExit (s : DaemonState) (g : Nat) : DaemonState :=
  { s with running := false, loopGens := s.loopGens.erase g }

/-- A daemon state is ticking when a live goroutine selects on the open stop
channel; each ticker period such a goroutine dispatches the job once per
list entry. -/
def ticking (s : DaemonState) : Prop := s.stopGen ∈ s.loopGens

instance (s : DaemonState) : Decidable (ticking s) := by
  unfold ticking; infer_instance

/-- States reachable from a fresh TimerDaemon: Start and Stop may fire at any
time, and a live goroutine exits once its stop channel has been closed
(context cancellation, the other exit, is outside the Start/Stop claims). -/
inductive Reach : DaemonState → Prop where
  | init : Reach NewTimerDaemon
  | start {s : DaemonState} : Reach s → Reach (Start s).2
  | stop {s : DaemonState} : Reach s → Reach (Stop s).2
  | exitLoop {s : DaemonState} {g : Nat} : Reach s → g ∈ s.loopGens →
      g < s.stopGen → Reach (loopExit s g)

/-- Structural invariant of reachable daemon states: exactly one live
goroutine while running, none while idle, and no goroutine selects on a
generation above the open one. -/
lemma reach_invariant {s : DaemonState} (h : Reach s) :
    s.loopGens.length = (if s.running then 1 else 0)
    ∧ ∀ g ∈ s.loopGens, g ≤ s.stopGen := by
  induction h with
  | init => exact ⟨rfl, by simp [NewTimerDaemon]⟩
  | start hr ih =>
      rename_i s
      by_cases hrun : s.running
      · simpa [Start, hrun] using ih
      · refine ⟨?_, ?_⟩
        · simp [Start, hrun, ih.1]
        · intro g hg
          simp only [Start, hrun, if_false] at hg ⊢
          rcases List.mem_cons.mp hg with h1 | h1
          · simp [h1]
          · exact ih.2 g h1
  | stop hr ih =>
      rename_i s
      by_cases hrun : s.running
      · refine ⟨?_, ?_⟩
        · simpa [Stop, hrun] using ih.1
        · intro g hg
          simp only [Stop, hrun, not_true, if_false] at hg ⊢
          exact Nat.le_succ_of_le (ih.2 g hg)
      · simpa [Stop, hrun] using ih
  | exitLoop hr hg hlt ih =>
      rename_i s g
      have hrun : s.running = true := by
        by_contra hc
        have h0 : s.loopGens.length = 0 := by
          have := ih.1
          simp only [Bool.not_eq_true] at hc
          simpa [hc] using this
        exact absurd (List.length_pos.mpr (List.ne_nil_of_mem hg)) (by omega)
      refine ⟨?_, ?_⟩
      · have : (s.loopGens.erase g).length = s.loopGens.length - 1 :=
          List.length_erase_of_mem hg
        simp only [loopExit, this, ih.1, hrun, if_true, if_false]
        rfl
      · intro g2 hg2
        exact ih.2 g2 (List.mem_of_mem_erase hg2)

/-- C7: Start while running is a success with no state change (so the single
live goroutine fires the job at most once per period, never twice); Stop
while idle is a success with no side effect; Stop while running closes the
stop channel and replaces it with a fresh generation; and in any reachable
running state, Stop, followed by the signalled goroutine's exit, followed by
Start, is again a reachable execution whose final state is ticking. -/
theorem TimerDaemon_start_stop_restartable :
    (∀ s : DaemonState, s.running = true → Start s = (.ok (), s))
    ∧ (∀ s : DaemonState, s.running = false → Stop s = (.ok (), s))
    ∧ (∀ s : DaemonState, Reach s → s.loopGens.length ≤ 1)
    ∧ (∀ s : DaemonState, s.running = true →
        ((Stop s).2).stopGen = s.stopGen + 1)
    ∧ (∀ (s : DaemonState) (g : Nat), Reach s → s.running = true →
        g ∈ s.loopGens →
        g < ((Stop s).2).stopGen
        ∧ Reach (Start (loopExit (Stop s).2 g)).2
        ∧ ticking (Start (loopExit (Stop s).2 g)).2) := by
  refine ⟨?_, ?_, ?_, ?_, ?_⟩
  · intro s h
    simp [Start, h]
  · intro s h
    simp [Stop, h]
  · intro s h
    rcases (reach_invariant h).1 with hlen
    split_ifs at hlen <;> omega
  · intro s h
    simp [Stop, h]
  · intro s g hr hrun hg
    have hle : g ≤ s.stopGen := (reach_invariant hr).2 g hg
    have hstop : (Stop s).2 = { s with stopGen := s.stopGen + 1 } := by
      simp [Stop, hrun]
    have hlt : g < ((Stop s).2).stopGen := by
      rw [hstop]
      show g < s.stopGen + 1
      omega
    have hreach2 : Reach (loopExit (Stop s).2 g) :=
      Reach.exitLoop (Reach.stop hr) (by rw [hstop]; simpa using hg) hlt
    refine ⟨hlt, Reach.start hreach2, ?_⟩
    have hnotrun : (loopExit (Stop s).2 g).running = false := rfl
    simp [Start, loopExit, hstop, ticking]

/-- Witness for C7: the Start/Stop semantics applied to the fresh daemon
after one Start: a second Start is the identity, Stop on the fresh daemon is
the identity, and the stop-exit-start cycle from the running state ends in a
ticking state. -/
theorem TimerDaemon_start_stop_restartable_witness :
    Start (⟨true, 0, [0]⟩ : DaemonState) = (.ok (), ⟨true, 0, [0]⟩)
    ∧ Stop NewTimerDaemon = (.ok (), NewTimerDaemon)
    ∧ ticking (Start (loopExit (Stop ⟨true, 0, [0]⟩).2 0)).2 :=
  ⟨TimerDaemon_start_stop_restartable.1 ⟨true, 0, [0]⟩ rfl,
   TimerDaemon_start_stop_restartable.2.1 NewTimerDaemon rfl,
   (TimerDaemon_start_stop_restartable.2.2.2.2 ⟨true, 0, [0]⟩ 0
     (Reach.start Reach.init) rfl (by decide)).2.2⟩

end daemon

